import Mathlib

/-!
# SDO command layer wrapper (`stack/src/user/sdo/sdocom.c`)

A shallow embedding of the wrapper that forwards every SDO command layer call
to the SDO stack selected by `sdocom_init`.

* The file-static `pSdoComInstance` is a field of `State`.
* A `tSdoComFunctions*` is an address (`Nat`, `NULL = 0`); `Env.mem` tells which
  function table, if any, lives at an address.
* The backends are external: their entry points are arbitrary functions on a
  world `W` (the state owned by the backends and by the callers, including the
  memory behind pointer arguments).  `pSdoComInstance` is `static`, so no entry
  point can assign it.
* `p->member` reads the memory at `p`; the source compares no pointer with
  `NULL`, and neither does the embedding.  Where no table can be read at `p`
  the call stops: outcome `Outcome.fault`.  Whether a read through address 0
  stops is a property of the target (`Env.mem NULL`), not of `sdocom.c`.
* `State.calls` is a ghost log of the calls made through `pSdoComInstance`.

The last part embeds the enumeration `tEdrvBufferInFrame` of `Include/edrv.h`.
-/

namespace SdoCom

/-- The null pointer. -/
def NULL : Nat := 0

/-- Names of the members of `tSdoComFunctions` called by `sdocom.c`. -/
inductive Entry where
  | pfnInit
  | pfnAddInstance
  | pfnDelInstance
  | pfnDefineCon
  | pfnTransByIdx
  | pfnGetNodeId
  | pfnGetState
  | pfnSdoAbort
  | pfnDeleteCon
  deriving DecidableEq

/-- One call `pSdoComInstance->entry(args)`: the table pointer the call went
through, the member called and the arguments in order. -/
structure Call where
  table : Nat
  entry : Entry
  args : List Nat
  deriving DecidableEq

/-- Modelled from the spec: `tSdoComFunctions` is declared in `user/sdocom.h`,
which is not among the sources.  It is the backend descriptor, "an immutable
table of function entry points (init, add/remove instance, define/undefine
connection, submit transfer, query state, abort, get peer)"; the members carry
the names and argument lists with which `sdocom.c` calls them.  Every entry
point receives the world and returns its result with the new world. -/
structure tSdoComFunctions (W : Type) where
  pfnInit : W → Nat × W
  pfnAddInstance : W → Nat × W
  pfnDelInstance : W → Nat × W
  pfnDefineCon : Nat → Nat → Nat → W → Nat × W
  pfnTransByIdx : Nat → W → Nat × W
  pfnGetNodeId : Nat → W → Nat × W
  pfnGetState : Nat → Nat → W → Nat × W
  pfnSdoAbort : Nat → Nat → W → Nat × W
  pfnDeleteCon : Nat → W → Nat × W

/-- What `sdocom.c` uses and does not define: the enumerators of the stack type
and of `tOplkError`, the two interface getters (each returns the address of its
backend's table) and the memory of the target: `mem p` is the table read
through the pointer `p`, none where such a read stops the program. -/
structure Env (W : Type) where
  kErrorOk : Nat
  tOplkApiStdSdoStack : Nat
  tOplkApiTestSdoCom : Nat
  tOplkApiTestSdoSeq : Nat
  sdocomdummy_getInterface : Nat
  sdocomstandard_getInterface : Nat
  mem : Nat → Option (tSdoComFunctions W)

/-- Program state: the static `pSdoComInstance`, the world outside the wrapper
and the ghost log of calls made through `pSdoComInstance`, oldest first. -/
structure State (W : Type) where
  pSdoComInstance : Nat
  world : W
  calls : List Call

/-- State at program start: a static pointer is null. -/
def initState {W : Type} (w : W) : State W :=
  { pSdoComInstance := NULL, world := w, calls := [] }

/-- Result of running a wrapper function: it returns `value` in state `st`, or
it stops in state `st` at the dereference of a pointer at which no function
table can be read. -/
inductive Outcome (W : Type) where
  | returned (value : Nat) (st : State W)
  | fault (st : State W)

/-- The state in which a run ends. -/
def Outcome.final {W : Type} : Outcome W → State W
  | Outcome.returned _ st => st
  | Outcome.fault st => st

/-- The value handed to the caller, if the function returns. -/
def Outcome.value {W : Type} : Outcome W → Option Nat
  | Outcome.returned v _ => some v
  | Outcome.fault _ => none

/-- The table read by `p->member`: what the memory holds at `p`, none where the
read stops the program. -/
def deref {W : Type} (env : Env W) (p : Nat) : Option (tSdoComFunctions W) :=
  env.mem p

/-- The `switch (stackType_p)` of `sdocom_init`: the value assigned to
`pSdoComInstance`. -/
def sdocom_init_switch {W : Type} (env : Env W) (stackType_p : Nat) : Nat :=
  if stackType_p = env.tOplkApiTestSdoCom then env.sdocomdummy_getInterface
  else if stackType_p = env.tOplkApiTestSdoSeq then env.sdocomdummy_getInterface
  else if stackType_p = env.tOplkApiStdSdoStack then env.sdocomstandard_getInterface
  else env.sdocomstandard_getInterface

/-- `tOplkError sdocom_init(UINT stackType_p)`: assign `pSdoComInstance` by the
switch, then `ret = pSdoComInstance->pfnInit(); return ret;`.  (The initial
`ret = kErrorOk` of every function of the file is overwritten before use.) -/
def sdocom_init {W : Type} (env : Env W) (s : State W) (stackType_p : Nat) : Outcome W :=
  let s1 : State W := { s with pSdoComInstance := sdocom_init_switch env stackType_p }
  match deref env s1.pSdoComInstance with
  | none => Outcome.fault s1
  | some t =>
    let r := t.pfnInit s1.world
    Outcome.returned r.1
      { s1 with world := r.2,
                calls := s1.calls ++ [⟨s1.pSdoComInstance, Entry.pfnInit, []⟩] }

/-- `tOplkError sdocom_addInstance(void)`. -/
def sdocom_addInstance {W : Type} (env : Env W) (s : State W) : Outcome W :=
  match deref env s.pSdoComInstance with
  | none => Outcome.fault s
  | some t =>
    let r := t.pfnAddInstance s.world
    Outcome.returned r.1
      { s with world := r.2,
               calls := s.calls ++ [⟨s.pSdoComInstance, Entry.pfnAddInstance, []⟩] }

/-- `tOplkError sdocom_delInstance(void)`. -/
def sdocom_delInstance {W : Type} (env : Env W) (s : State W) : Outcome W :=
  match deref env s.pSdoComInstance with
  | none => Outcome.fault s
  | some t =>
    let r := t.pfnDelInstance s.world
    Outcome.returned r.1
      { s with world := r.2,
               calls := s.calls ++ [⟨s.pSdoComInstance, Entry.pfnDelInstance, []⟩] }

/-- `tOplkError sdocom_defineConnection(tSdoComConHdl* pSdoComConHdl_p,
UINT targetNodeId_p, tSdoType sdoType_p)`. -/
def sdocom_defineConnection {W : Type} (env : Env W) (s : State W)
    (pSdoComConHdl_p targetNodeId_p sdoType_p : Nat) : Outcome W :=
  match deref env s.pSdoComInstance with
  | none => Outcome.fault s
  | some t =>
    let r := t.pfnDefineCon pSdoComConHdl_p targetNodeId_p sdoType_p s.world
    Outcome.returned r.1
      { s with world := r.2,
               calls := s.calls ++ [⟨s.pSdoComInstance, Entry.pfnDefineCon,
                                     [pSdoComConHdl_p, targetNodeId_p, sdoType_p]⟩] }

/-- `tOplkError sdocom_initTransferByIndex(tSdoComTransParamByIndex*
pSdoComTransParam_p)`. -/
def sdocom_initTransferByIndex {W : Type} (env : Env W) (s : State W)
    (pSdoComTransParam_p : Nat) : Outcome W :=
  match deref env s.pSdoComInstance with
  | none => Outcome.fault s
  | some t =>
    let r := t.pfnTransByIdx pSdoComTransParam_p s.world
    Outcome.returned r.1
      { s with world := r.2,
               calls := s.calls ++ [⟨s.pSdoComInstance, Entry.pfnTransByIdx,
                                     [pSdoComTransParam_p]⟩] }

/-- `UINT sdocom_getNodeId(tSdoComConHdl sdoComConHdl_p)`. -/
def sdocom_getNodeId {W : Type} (env : Env W) (s : State W)
    (sdoComConHdl_p : Nat) : Outcome W :=
  match deref env s.pSdoComInstance with
  | none => Outcome.fault s
  | some t =>
    let r := t.pfnGetNodeId sdoComConHdl_p s.world
    Outcome.returned r.1
      { s with world := r.2,
               calls := s.calls ++ [⟨s.pSdoComInstance, Entry.pfnGetNodeId,
                                     [sdoComConHdl_p]⟩] }

/-- `tOplkError sdocom_getState(tSdoComConHdl sdoComConHdl_p,
tSdoComFinished* pSdoComFinished_p)`. -/
def sdocom_getState {W : Type} (env : Env W) (s : State W)
    (sdoComConHdl_p pSdoComFinished_p : Nat) : Outcome W :=
  match deref env s.pSdoComInstance with
  | none => Outcome.fault s
  | some t =>
    let r := t.pfnGetState sdoComConHdl_p pSdoComFinished_p s.world
    Outcome.returned r.1
      { s with world := r.2,
               calls := s.calls ++ [⟨s.pSdoComInstance, Entry.pfnGetState,
                                     [sdoComConHdl_p, pSdoComFinished_p]⟩] }

/-- `tOplkError sdocom_abortTransfer(tSdoComConHdl sdoComConHdl_p,
UINT32 abortCode_p)`. -/
def sdocom_abortTransfer {W : Type} (env : Env W) (s : State W)
    (sdoComConHdl_p abortCode_p : Nat) : Outcome W :=
  match deref env s.pSdoComInstance with
  | none => Outcome.fault s
  | some t =>
    let r := t.pfnSdoAbort sdoComConHdl_p abortCode_p s.world
    Outcome.returned r.1
      { s with world := r.2,
               calls := s.calls ++ [⟨s.pSdoComInstance, Entry.pfnSdoAbort,
                                     [sdoComConHdl_p, abortCode_p]⟩] }

/-- `tOplkError sdocom_undefineConnection(tSdoComConHdl sdoComConHdl_p)`. -/
def sdocom_undefineConnection {W : Type} (env : Env W) (s : State W)
    (sdoComConHdl_p : Nat) : Outcome W :=
  match deref env s.pSdoComInstance with
  | none => Outcome.fault s
  | some t =>
    let r := t.pfnDeleteCon sdoComConHdl_p s.world
    Outcome.returned r.1
      { s with world := r.2,
               calls := s.calls ++ [⟨s.pSdoComInstance, Entry.pfnDeleteCon,
                                     [sdoComConHdl_p]⟩] }

/-! ## Sequences of public calls -/

/-- One call of a public function of `sdocom.c` with its arguments. -/
inductive Op where
  | init (stackType_p : Nat)
  | addInstance
  | delInstance
  | defineConnection (pSdoComConHdl_p targetNodeId_p sdoType_p : Nat)
  | initTransferByIndex (pSdoComTransParam_p : Nat)
  | getNodeId (sdoComConHdl_p : Nat)
  | getState (sdoComConHdl_p pSdoComFinished_p : Nat)
  | abortTransfer (sdoComConHdl_p abortCode_p : Nat)
  | undefineConnection (sdoComConHdl_p : Nat)
  deriving DecidableEq

/-- Run one public call. -/
def step {W : Type} (env : Env W) (s : State W) : Op → Outcome W
  | Op.init k => sdocom_init env s k
  | Op.addInstance => sdocom_addInstance env s
  | Op.delInstance => sdocom_delInstance env s
  | Op.defineConnection p n t => sdocom_defineConnection env s p n t
  | Op.initTransferByIndex p => sdocom_initTransferByIndex env s p
  | Op.getNodeId h => sdocom_getNodeId env s h
  | Op.getState h p => sdocom_getState env s h p
  | Op.abortTransfer h c => sdocom_abortTransfer env s h c
  | Op.undefineConnection h => sdocom_undefineConnection env s h

/-- Run a sequence of public calls one after the other: the values returned, in
order, and the final state; or the state in which a call stopped at an invalid
dereference. -/
def run {W : Type} (env : Env W) (s : State W) : List Op → Except (State W) (List Nat × State W)
  | [] => Except.ok ([], s)
  | op :: ops =>
    match step env s op with
    | Outcome.fault st => Except.error st
    | Outcome.returned v st =>
      match run env st ops with
      | Except.error st' => Except.error st'
      | Except.ok (vs, st') => Except.ok (v :: vs, st')

/-- The pointer selected by the last `sdocom_init` of a sequence of calls, or
`p` when the sequence has none. -/
def lastSelected {W : Type} (env : Env W) (p : Nat) : List Op → Nat
  | [] => p
  | Op.init k :: ops => lastSelected env (sdocom_init_switch env k) ops
  | _ :: ops => lastSelected env p ops

/-! ## The lookup of a backend -/

/-- Modelled from the spec: the connection table of a backend is not among the
sources.  "A bounded mapping from handle to Connection state": entry `h` holds
the peer node identifier of the connection with handle `h` while that handle is
allocated. -/
structure ConTable where
  peer : List (Option Nat)

/-- Modelled from the spec: a handle is currently allocated when the table has a
connection at it. -/
def ConTable.allocated (t : ConTable) (h : Nat) : Bool :=
  match t.peer[h]? with
  | some (some _) => true
  | _ => false

/-- Modelled from the spec: the `pfnGetNodeId` of a backend is not among the
sources.  "`getPeer(handle)`: pure lookup; returns an invalid-peer sentinel if
the handle is not currently allocated"; the sentinel is `C_ADR_INVALID`, named
by the comment of `sdocom_getNodeId`. -/
def getPeer (C_ADR_INVALID : Nat) (h : Nat) (t : ConTable) : Nat × ConTable :=
  match t.peer[h]? with
  | some (some node) => (node, t)
  | _ => (C_ADR_INVALID, t)

/-! ## Buffer position tags (`Include/edrv.h`) -/

/-- The enumeration `tEdrvBufferInFrame` of `edrv.h`: position of a buffer in an
ethernet frame. -/
inductive tEdrvBufferInFrame where
  | kEdrvBufferFirstInFrame
  | kEdrvBufferMiddleInFrame
  | kEdrvBufferLastInFrame
  deriving DecidableEq

/-- The integer value that `edrv.h` gives to each enumerator. -/
def tEdrvBufferInFrame.toNat : tEdrvBufferInFrame → Nat
  | tEdrvBufferInFrame.kEdrvBufferFirstInFrame => 0x01
  | tEdrvBufferInFrame.kEdrvBufferMiddleInFrame => 0x02
  | tEdrvBufferInFrame.kEdrvBufferLastInFrame => 0x04

/-- The bitwise OR of the values of a list of tags (0 for no tag). -/
def orTags : List tEdrvBufferInFrame → Nat
  | [] => 0
  | t :: ts => t.toNat ||| orTags ts

/-- Whether tag `t` is set in the mask `m`: the C test `(m & t) != 0`. -/
def tagSet (m : Nat) (t : tEdrvBufferInFrame) : Bool :=
  m &&& t.toNat != 0

/-! ## A concrete environment

Two tables over the world `List Nat`: every entry point appends a tag to the
world (tags below 100 for the dummy stack, from 100 on for the standard stack)
and returns a code of its own. -/

/-- Sample table of the dummy stack, stored at address 1. -/
def exDummy : tSdoComFunctions (List Nat) where
  pfnInit := fun w => (0, w ++ [1])
  pfnAddInstance := fun w => (0, w ++ [2])
  pfnDelInstance := fun w => (0, w ++ [3])
  pfnDefineCon := fun _ _ _ w => (0, w ++ [4])
  pfnTransByIdx := fun _ w => (0, w ++ [5])
  pfnGetNodeId := fun _ w => (0, w ++ [6])
  pfnGetState := fun _ _ w => (0, w ++ [7])
  pfnSdoAbort := fun _ _ w => (0, w ++ [8])
  pfnDeleteCon := fun _ w => (0, w ++ [9])

/-- Sample table of the standard stack, stored at address 2; its `pfnInit`
reports an error. -/
def exStd : tSdoComFunctions (List Nat) where
  pfnInit := fun w => (5, w ++ [101])
  pfnAddInstance := fun w => (11, w ++ [102])
  pfnDelInstance := fun w => (12, w ++ [103])
  pfnDefineCon := fun p n t w => (p + n + t, w ++ [104])
  pfnTransByIdx := fun p w => (p + 1, w ++ [105])
  pfnGetNodeId := fun h w => (h + 2, w ++ [106])
  pfnGetState := fun h p w => (h + p, w ++ [107])
  pfnSdoAbort := fun h c w => (h + c + 1, w ++ [108])
  pfnDeleteCon := fun h w => (h + 3, w ++ [109])

/-- Sample environment on a target where a read through address 0 stops the
program. -/
def exEnv : Env (List Nat) where
  kErrorOk := 0
  tOplkApiStdSdoStack := 0x00
  tOplkApiTestSdoCom := 0x10
  tOplkApiTestSdoSeq := 0x20
  sdocomdummy_getInterface := 1
  sdocomstandard_getInterface := 2
  mem := fun p => if p = 1 then some exDummy else if p = 2 then some exStd else none

/-- Sample environment on a target without memory protection: the same as
`exEnv`, but a read through address 0 goes through (and finds the bytes of
`exStd`). -/
def exFlatEnv : Env (List Nat) where
  kErrorOk := 0
  tOplkApiStdSdoStack := 0x00
  tOplkApiTestSdoCom := 0x10
  tOplkApiTestSdoSeq := 0x20
  sdocomdummy_getInterface := 1
  sdocomstandard_getInterface := 2
  mem := fun p => if p = 1 then some exDummy else some exStd

/-- Sample state in which the standard stack of `exEnv` is active. -/
def exStdActive : State (List Nat) :=
  { pSdoComInstance := 2, world := [], calls := [] }

/-- Sample state in which the dummy stack of `exEnv` is active. -/
def exDummyActive : State (List Nat) :=
  { pSdoComInstance := 1, world := [], calls := [] }

/-- Sample backend over a connection table: `pfnGetNodeId` is the lookup of the
spec with sentinel 0, the other entry points leave the table alone. -/
def exLookup : tSdoComFunctions ConTable where
  pfnInit := fun w => (0, w)
  pfnAddInstance := fun w => (0, w)
  pfnDelInstance := fun w => (0, w)
  pfnDefineCon := fun _ _ _ w => (0, w)
  pfnTransByIdx := fun _ w => (0, w)
  pfnGetNodeId := getPeer 0
  pfnGetState := fun _ _ w => (0, w)
  pfnSdoAbort := fun _ _ w => (0, w)
  pfnDeleteCon := fun _ w => (0, w)

/-- Sample environment with `exLookup` as both stacks. -/
def exLookupEnv : Env ConTable where
  kErrorOk := 0
  tOplkApiStdSdoStack := 0x00
  tOplkApiTestSdoCom := 0x10
  tOplkApiTestSdoSeq := 0x20
  sdocomdummy_getInterface := 1
  sdocomstandard_getInterface := 2
  mem := fun p => if p = 1 then some exLookup else if p = 2 then some exLookup else none

/-! ## Unfolding lemmas -/

theorem sdocom_init_some {W : Type} (env : Env W) (s : State W) (k : Nat)
    (t : tSdoComFunctions W) (h : deref env (sdocom_init_switch env k) = some t) :
    sdocom_init env s k = Outcome.returned (t.pfnInit s.world).1
      { pSdoComInstance := sdocom_init_switch env k, world := (t.pfnInit s.world).2,
        calls := s.calls ++ [⟨sdocom_init_switch env k, Entry.pfnInit, []⟩] } := by
  simp [sdocom_init, h]

theorem sdocom_init_none {W : Type} (env : Env W) (s : State W) (k : Nat)
    (h : deref env (sdocom_init_switch env k) = none) :
    sdocom_init env s k
      = Outcome.fault { s with pSdoComInstance := sdocom_init_switch env k } := by
  simp [sdocom_init, h]

theorem sdocom_init_final {W : Type} (env : Env W) (s : State W) (k : Nat) :
    (sdocom_init env s k).final.pSdoComInstance = sdocom_init_switch env k := by
  cases hd : deref env (sdocom_init_switch env k) with
  | none => rw [sdocom_init_none env s k hd]; rfl
  | some t => rw [sdocom_init_some env s k t hd]; rfl

theorem sdocom_init_switch_cases {W : Type} (env : Env W) (k : Nat) :
    sdocom_init_switch env k = env.sdocomdummy_getInterface
      ∨ sdocom_init_switch env k = env.sdocomstandard_getInterface := by
  unfold sdocom_init_switch
  split
  · exact Or.inl rfl
  · split
    · exact Or.inl rfl
    · split <;> exact Or.inr rfl

theorem sdocom_addInstance_some {W : Type} (env : Env W) (s : State W)
    (t : tSdoComFunctions W) (hd : deref env s.pSdoComInstance = some t) :
    sdocom_addInstance env s = Outcome.returned (t.pfnAddInstance s.world).1
      { pSdoComInstance := s.pSdoComInstance, world := (t.pfnAddInstance s.world).2,
        calls := s.calls ++ [⟨s.pSdoComInstance, Entry.pfnAddInstance, []⟩] } := by
  simp [sdocom_addInstance, hd]

theorem sdocom_addInstance_none {W : Type} (env : Env W) (s : State W)
    (hd : deref env s.pSdoComInstance = none) :
    sdocom_addInstance env s = Outcome.fault s := by
  simp [sdocom_addInstance, hd]

theorem sdocom_delInstance_some {W : Type} (env : Env W) (s : State W)
    (t : tSdoComFunctions W) (hd : deref env s.pSdoComInstance = some t) :
    sdocom_delInstance env s = Outcome.returned (t.pfnDelInstance s.world).1
      { pSdoComInstance := s.pSdoComInstance, world := (t.pfnDelInstance s.world).2,
        calls := s.calls ++ [⟨s.pSdoComInstance, Entry.pfnDelInstance, []⟩] } := by
  simp [sdocom_delInstance, hd]

theorem sdocom_delInstance_none {W : Type} (env : Env W) (s : State W)
    (hd : deref env s.pSdoComInstance = none) :
    sdocom_delInstance env s = Outcome.fault s := by
  simp [sdocom_delInstance, hd]

theorem sdocom_defineConnection_some {W : Type} (env : Env W) (s : State W) (p n ty : Nat)
    (t : tSdoComFunctions W) (hd : deref env s.pSdoComInstance = some t) :
    sdocom_defineConnection env s p n ty = Outcome.returned (t.pfnDefineCon p n ty s.world).1
      { pSdoComInstance := s.pSdoComInstance, world := (t.pfnDefineCon p n ty s.world).2,
        calls := s.calls ++ [⟨s.pSdoComInstance, Entry.pfnDefineCon, [p, n, ty]⟩] } := by
  simp [sdocom_defineConnection, hd]

theorem sdocom_defineConnection_none {W : Type} (env : Env W) (s : State W) (p n ty : Nat)
    (hd : deref env s.pSdoComInstance = none) :
    sdocom_defineConnection env s p n ty = Outcome.fault s := by
  simp [sdocom_defineConnection, hd]

theorem sdocom_initTransferByIndex_some {W : Type} (env : Env W) (s : State W) (x : Nat)
    (t : tSdoComFunctions W) (hd : deref env s.pSdoComInstance = some t) :
    sdocom_initTransferByIndex env s x = Outcome.returned (t.pfnTransByIdx x s.world).1
      { pSdoComInstance := s.pSdoComInstance, world := (t.pfnTransByIdx x s.world).2,
        calls := s.calls ++ [⟨s.pSdoComInstance, Entry.pfnTransByIdx, [x]⟩] } := by
  simp [sdocom_initTransferByIndex, hd]

theorem sdocom_initTransferByIndex_none {W : Type} (env : Env W) (s : State W) (x : Nat)
    (hd : deref env s.pSdoComInstance = none) :
    sdocom_initTransferByIndex env s x = Outcome.fault s := by
  simp [sdocom_initTransferByIndex, hd]

theorem sdocom_getNodeId_some {W : Type} (env : Env W) (s : State W) (h : Nat)
    (t : tSdoComFunctions W) (hd : deref env s.pSdoComInstance = some t) :
    sdocom_getNodeId env s h = Outcome.returned (t.pfnGetNodeId h s.world).1
      { pSdoComInstance := s.pSdoComInstance, world := (t.pfnGetNodeId h s.world).2,
        calls := s.calls ++ [⟨s.pSdoComInstance, Entry.pfnGetNodeId, [h]⟩] } := by
  simp [sdocom_getNodeId, hd]

theorem sdocom_getNodeId_none {W : Type} (env : Env W) (s : State W) (h : Nat)
    (hd : deref env s.pSdoComInstance = none) :
    sdocom_getNodeId env s h = Outcome.fault s := by
  simp [sdocom_getNodeId, hd]

theorem sdocom_getState_some {W : Type} (env : Env W) (s : State W) (h f : Nat)
    (t : tSdoComFunctions W) (hd : deref env s.pSdoComInstance = some t) :
    sdocom_getState env s h f = Outcome.returned (t.pfnGetState h f s.world).1
      { pSdoComInstance := s.pSdoComInstance, world := (t.pfnGetState h f s.world).2,
        calls := s.calls ++ [⟨s.pSdoComInstance, Entry.pfnGetState, [h, f]⟩] } := by
  simp [sdocom_getState, hd]

theorem sdocom_getState_none {W : Type} (env : Env W) (s : State W) (h f : Nat)
    (hd : deref env s.pSdoComInstance = none) :
    sdocom_getState env s h f = Outcome.fault s := by
  simp [sdocom_getState, hd]

theorem sdocom_abortTransfer_some {W : Type} (env : Env W) (s : State W) (h c : Nat)
    (t : tSdoComFunctions W) (hd : deref env s.pSdoComInstance = some t) :
    sdocom_abortTransfer env s h c = Outcome.returned (t.pfnSdoAbort h c s.world).1
      { pSdoComInstance := s.pSdoComInstance, world := (t.pfnSdoAbort h c s.world).2,
        calls := s.calls ++ [⟨s.pSdoComInstance, Entry.pfnSdoAbort, [h, c]⟩] } := by
  simp [sdocom_abortTransfer, hd]

theorem sdocom_abortTransfer_none {W : Type} (env : Env W) (s : State W) (h c : Nat)
    (hd : deref env s.pSdoComInstance = none) :
    sdocom_abortTransfer env s h c = Outcome.fault s := by
  simp [sdocom_abortTransfer, hd]

theorem sdocom_undefineConnection_some {W : Type} (env : Env W) (s : State W) (h : Nat)
    (t : tSdoComFunctions W) (hd : deref env s.pSdoComInstance = some t) :
    sdocom_undefineConnection env s h = Outcome.returned (t.pfnDeleteCon h s.world).1
      { pSdoComInstance := s.pSdoComInstance, world := (t.pfnDeleteCon h s.world).2,
        calls := s.calls ++ [⟨s.pSdoComInstance, Entry.pfnDeleteCon, [h]⟩] } := by
  simp [sdocom_undefineConnection, hd]

theorem sdocom_undefineConnection_none {W : Type} (env : Env W) (s : State W) (h : Nat)
    (hd : deref env s.pSdoComInstance = none) :
    sdocom_undefineConnection env s h = Outcome.fault s := by
  simp [sdocom_undefineConnection, hd]

/-! ## Lemmas on sequences of calls -/

theorem step_final_pSdoComInstance {W : Type} (env : Env W) (s : State W) (op : Op) :
    (step env s op).final.pSdoComInstance = lastSelected env s.pSdoComInstance [op] := by
  cases op with
  | init k => simpa [step, lastSelected] using sdocom_init_final env s k
  | _ =>
    cases hd : deref env s.pSdoComInstance <;>
      simp [step, lastSelected, Outcome.final, hd, sdocom_addInstance, sdocom_delInstance,
        sdocom_defineConnection, sdocom_initTransferByIndex, sdocom_getNodeId,
        sdocom_getState, sdocom_abortTransfer, sdocom_undefineConnection]

theorem lastSelected_cons {W : Type} (env : Env W) (p : Nat) (op : Op) (ops : List Op) :
    lastSelected env p (op :: ops) = lastSelected env (lastSelected env p [op]) ops := by
  cases op <;> rfl

theorem lastSelected_no_init {W : Type} (env : Env W) (p : Nat) (ops : List Op)
    (h : ∀ k, Op.init k ∉ ops) : lastSelected env p ops = p := by
  induction ops with
  | nil => rfl
  | cons op ops ih =>
    have hrest : ∀ k, Op.init k ∉ ops := fun k hk => h k (List.mem_cons_of_mem _ hk)
    cases op with
    | init k => exact absurd (List.mem_cons_self _ _) (h k)
    | _ => simpa [lastSelected] using ih hrest

theorem lastSelected_append_init {W : Type} (env : Env W) (p k : Nat) (pre post : List Op) :
    lastSelected env p (pre ++ Op.init k :: post)
      = lastSelected env (sdocom_init_switch env k) post := by
  induction pre generalizing p with
  | nil => rfl
  | cons op pre ih =>
    rw [List.cons_append, lastSelected_cons, ih]

theorem run_ok_pSdoComInstance {W : Type} (env : Env W) (ops : List Op) :
    ∀ (s : State W) (vs : List Nat) (s' : State W), run env s ops = Except.ok (vs, s') →
      s'.pSdoComInstance = lastSelected env s.pSdoComInstance ops := by
  induction ops with
  | nil =>
    intro s vs s' h
    simp only [run, Except.ok.injEq, Prod.mk.injEq] at h
    rw [← h.2]; rfl
  | cons op ops ih =>
    intro s vs s' h
    have hp := step_final_pSdoComInstance env s op
    rw [lastSelected_cons, ← hp]
    unfold run at h
    cases hs : step env s op with
    | fault st => simp [hs] at h
    | returned v st =>
      rw [hs] at h
      cases hr : run env st ops with
      | error e => simp [hr] at h
      | ok r =>
        obtain ⟨ws, st'⟩ := r
        simp only [hr, Except.ok.injEq, Prod.mk.injEq] at h
        rw [← h.2, ih st ws st' hr]
        rfl

theorem deref_switch_isSome {W : Type} (env : Env W) (k : Nat)
    (hdummy : (deref env env.sdocomdummy_getInterface).isSome)
    (hstd : (deref env env.sdocomstandard_getInterface).isSome) :
    (deref env (sdocom_init_switch env k)).isSome := by
  rcases sdocom_init_switch_cases env k with h | h <;> rw [h] <;> assumption

theorem step_returns {W : Type} (env : Env W) (s : State W) (op : Op)
    (hdummy : (deref env env.sdocomdummy_getInterface).isSome)
    (hstd : (deref env env.sdocomstandard_getInterface).isSome)
    (hs : (deref env s.pSdoComInstance).isSome ∨ ∃ k, op = Op.init k) :
    ∃ v st, step env s op = Outcome.returned v st ∧ (deref env st.pSdoComInstance).isSome := by
  cases op with
  | init k =>
    have hk := deref_switch_isSome env k hdummy hstd
    obtain ⟨t, ht⟩ := Option.isSome_iff_exists.mp hk
    exact ⟨_, _, sdocom_init_some env s k t ht, hk⟩
  | _ =>
    have hv : (deref env s.pSdoComInstance).isSome := by
      rcases hs with h | ⟨k, hk⟩
      · exact h
      · cases hk
    obtain ⟨t, ht⟩ := Option.isSome_iff_exists.mp hv
    first
      | exact ⟨_, _, sdocom_addInstance_some env s t ht, hv⟩
      | exact ⟨_, _, sdocom_delInstance_some env s t ht, hv⟩
      | exact ⟨_, _, sdocom_defineConnection_some env s _ _ _ t ht, hv⟩
      | exact ⟨_, _, sdocom_initTransferByIndex_some env s _ t ht, hv⟩
      | exact ⟨_, _, sdocom_getNodeId_some env s _ t ht, hv⟩
      | exact ⟨_, _, sdocom_getState_some env s _ _ t ht, hv⟩
      | exact ⟨_, _, sdocom_abortTransfer_some env s _ _ t ht, hv⟩
      | exact ⟨_, _, sdocom_undefineConnection_some env s _ t ht, hv⟩

theorem run_returns {W : Type} (env : Env W)
    (hdummy : (deref env env.sdocomdummy_getInterface).isSome)
    (hstd : (deref env env.sdocomstandard_getInterface).isSome) (ops : List Op) :
    ∀ s : State W,
      ((deref env s.pSdoComInstance).isSome ∨ ∃ k rest, ops = Op.init k :: rest) →
      ∃ vs s', run env s ops = Except.ok (vs, s') ∧ vs.length = ops.length
        ∧ (ops ≠ [] → (deref env s'.pSdoComInstance).isSome) := by
  induction ops with
  | nil =>
    intro s _
    exact ⟨[], s, rfl, rfl, fun h => absurd rfl h⟩
  | cons op ops ih =>
    intro s hs
    have hs1 : (deref env s.pSdoComInstance).isSome ∨ ∃ k, op = Op.init k := by
      rcases hs with h | ⟨k, rest, h⟩
      · exact Or.inl h
      · exact Or.inr ⟨k, (List.cons.inj h).1⟩
    obtain ⟨v, st, hst, hvalid⟩ := step_returns env s op hdummy hstd hs1
    obtain ⟨vs, s', hrun, hlen, hfin⟩ := ih st (Or.inl hvalid)
    refine ⟨v :: vs, s', ?_, by simp [hlen], ?_⟩
    · simp [run, hst, hrun]
    · intro _
      cases ops with
      | nil =>
        simp only [run, Except.ok.injEq, Prod.mk.injEq] at hrun
        rw [← hrun.2]; exact hvalid
      | cons o os => exact hfin (List.cons_ne_nil _ _)

theorem getPeer_unallocated (C_ADR_INVALID h : Nat) (t : ConTable)
    (hfree : t.allocated h = false) : getPeer C_ADR_INVALID h t = (C_ADR_INVALID, t) := by
  unfold ConTable.allocated at hfree
  unfold getPeer
  split
  · rename_i node hnode
    rw [hnode] at hfree
    exact absurd hfree (by simp)
  · rfl

/-! ## Selection (C1) -/

/-- C1: for every stack type `k` passed to `sdocom_init`, the pointer made active
is the dummy interface exactly when `k` is `tOplkApiTestSdoCom` or
`tOplkApiTestSdoSeq`, and the standard interface for every other value, among
them `tOplkApiStdSdoStack` (its case label differs from the other two, as C
requires); the selection rejects no value: the pointer is assigned for every
`k`, and `sdocom_init` returns whenever the selected pointer designates a
table. -/
theorem sdocom_init_selects_backend {W : Type} (env : Env W) (s : State W) (k : Nat)
    (hif : env.sdocomdummy_getInterface ≠ env.sdocomstandard_getInterface)
    (hcom : env.tOplkApiStdSdoStack ≠ env.tOplkApiTestSdoCom)
    (hseq : env.tOplkApiStdSdoStack ≠ env.tOplkApiTestSdoSeq) :
    ((sdocom_init env s k).final.pSdoComInstance = env.sdocomdummy_getInterface
        ↔ (k = env.tOplkApiTestSdoCom ∨ k = env.tOplkApiTestSdoSeq))
    ∧ (¬ (k = env.tOplkApiTestSdoCom ∨ k = env.tOplkApiTestSdoSeq)
        → (sdocom_init env s k).final.pSdoComInstance = env.sdocomstandard_getInterface)
    ∧ (sdocom_init env s env.tOplkApiStdSdoStack).final.pSdoComInstance
        = env.sdocomstandard_getInterface
    ∧ ((deref env (sdocom_init_switch env k)).isSome
        → ∃ ret s', sdocom_init env s k = Outcome.returned ret s') := by
  refine ⟨?_, ?_, ?_, ?_⟩
  · rw [sdocom_init_final]
    unfold sdocom_init_switch
    by_cases h1 : k = env.tOplkApiTestSdoCom
    · simp [h1]
    · by_cases h2 : k = env.tOplkApiTestSdoSeq
      · simp [h2]
      · simp [h1, h2, Ne.symm hif]
  · intro h
    rw [sdocom_init_final]
    unfold sdocom_init_switch
    have h1 : ¬ k = env.tOplkApiTestSdoCom := fun e => h (Or.inl e)
    have h2 : ¬ k = env.tOplkApiTestSdoSeq := fun e => h (Or.inr e)
    simp [h1, h2]
  · rw [sdocom_init_final]
    unfold sdocom_init_switch
    simp [hcom, hseq]
  · intro h
    cases hd : deref env (sdocom_init_switch env k) with
    | none => simp [hd] at h
    | some t => exact ⟨_, _, sdocom_init_some env s k t hd⟩

/-- Witness of C1 on the sample environment: stack type `0x10` selects the dummy
interface (address 1), stack type `0x00` the standard interface (address 2). -/
theorem sdocom_init_selects_backend_witness :
    exEnv.sdocomdummy_getInterface ≠ exEnv.sdocomstandard_getInterface
    ∧ exEnv.tOplkApiStdSdoStack ≠ exEnv.tOplkApiTestSdoCom
    ∧ exEnv.tOplkApiStdSdoStack ≠ exEnv.tOplkApiTestSdoSeq
    ∧ ((sdocom_init exEnv (initState []) 0x10).final.pSdoComInstance = 1
        ↔ (0x10 = 0x10 ∨ 0x10 = 0x20))
    ∧ (sdocom_init exEnv (initState []) 0x00).final.pSdoComInstance = 2 :=
  have t := sdocom_init_selects_backend exEnv (initState []) 0x10
    (by decide) (by decide) (by decide)
  ⟨by decide, by decide, by decide, t.1, t.2.2.1⟩

/-! ## Forwarding (C2, C3) -/

/-- C2: for every active backend `B` and all arguments, each of the eight
forwarding functions returns exactly the value that the corresponding entry
point of `B` returns on the same arguments, in the same order, in the current
world. -/
theorem forwarding_returns_backend_result {W : Type} (env : Env W) (s : State W)
    (B : tSdoComFunctions W) (hB : deref env s.pSdoComInstance = some B)
    (p node sdoType x h f code : Nat) :
    (sdocom_addInstance env s).value = some (B.pfnAddInstance s.world).1
    ∧ (sdocom_delInstance env s).value = some (B.pfnDelInstance s.world).1
    ∧ (sdocom_defineConnection env s p node sdoType).value
        = some (B.pfnDefineCon p node sdoType s.world).1
    ∧ (sdocom_initTransferByIndex env s x).value = some (B.pfnTransByIdx x s.world).1
    ∧ (sdocom_getNodeId env s h).value = some (B.pfnGetNodeId h s.world).1
    ∧ (sdocom_getState env s h f).value = some (B.pfnGetState h f s.world).1
    ∧ (sdocom_abortTransfer env s h code).value = some (B.pfnSdoAbort h code s.world).1
    ∧ (sdocom_undefineConnection env s h).value = some (B.pfnDeleteCon h s.world).1 := by
  rw [sdocom_addInstance_some env s B hB, sdocom_delInstance_some env s B hB,
    sdocom_defineConnection_some env s p node sdoType B hB,
    sdocom_initTransferByIndex_some env s x B hB, sdocom_getNodeId_some env s h B hB,
    sdocom_getState_some env s h f B hB, sdocom_abortTransfer_some env s h code B hB,
    sdocom_undefineConnection_some env s h B hB]
  simp [Outcome.value]

/-- Witness of C2: the standard stack of the sample environment is active and
the wrapper hands back its values (argument order matters for `pfnSdoAbort`
and `pfnDefineCon` of the sample). -/
theorem forwarding_returns_backend_result_witness :
    deref exEnv exStdActive.pSdoComInstance = some exStd
    ∧ (sdocom_addInstance exEnv exStdActive).value = some 11
    ∧ (sdocom_defineConnection exEnv exStdActive 100 20 3).value = some 123
    ∧ (sdocom_getNodeId exEnv exStdActive 7).value = some 9
    ∧ (sdocom_undefineConnection exEnv exStdActive 7).value = some 10 :=
  have t := forwarding_returns_backend_result exEnv exStdActive exStd rfl 100 20 3 0 7 0 0
  ⟨rfl, t.1, t.2.2.1, t.2.2.2.2.1, t.2.2.2.2.2.2.2⟩

/-- C3: for every stack type `k` and every state before the call (whatever
backend was active, or none), `sdocom_init k` returns exactly the result of
`pfnInit` of the backend selected for `k` by this call. -/
theorem sdocom_init_returns_selected_pfnInit {W : Type} (env : Env W) (s : State W)
    (k : Nat) (B : tSdoComFunctions W)
    (hB : deref env (sdocom_init_switch env k) = some B) :
    (sdocom_init env s k).value = some (B.pfnInit s.world).1 := by
  rw [sdocom_init_some env s k B hB]
  rfl

/-- Witness of C3: with the dummy stack active (its `pfnInit` returns 0),
`sdocom_init 0x00` returns 5, the result of `pfnInit` of the standard stack. -/
theorem sdocom_init_returns_selected_pfnInit_witness :
    deref exEnv (sdocom_init_switch exEnv 0x00) = some exStd
    ∧ deref exEnv exDummyActive.pSdoComInstance = some exDummy
    ∧ (exDummy.pfnInit exDummyActive.world).1 = 0
    ∧ (sdocom_init exEnv exDummyActive 0x00).value = some 5 :=
  ⟨rfl, rfl, rfl, sdocom_init_returns_selected_pfnInit exEnv exDummyActive 0x00 exStd rfl⟩

/-! ## Frame (C4) and calls with no backend (C5) -/

/-- C4: none of the eight forwarding functions changes which backend is active:
for every state and all arguments, `pSdoComInstance` in the state in which the
call ends equals the one before the call, whatever the backend returns. -/
theorem forwarding_keeps_pSdoComInstance {W : Type} (env : Env W) (s : State W)
    (p node sdoType x h f code : Nat) :
    (sdocom_addInstance env s).final.pSdoComInstance = s.pSdoComInstance
    ∧ (sdocom_delInstance env s).final.pSdoComInstance = s.pSdoComInstance
    ∧ (sdocom_defineConnection env s p node sdoType).final.pSdoComInstance = s.pSdoComInstance
    ∧ (sdocom_initTransferByIndex env s x).final.pSdoComInstance = s.pSdoComInstance
    ∧ (sdocom_getNodeId env s h).final.pSdoComInstance = s.pSdoComInstance
    ∧ (sdocom_getState env s h f).final.pSdoComInstance = s.pSdoComInstance
    ∧ (sdocom_abortTransfer env s h code).final.pSdoComInstance = s.pSdoComInstance
    ∧ (sdocom_undefineConnection env s h).final.pSdoComInstance = s.pSdoComInstance := by
  cases hd : deref env s.pSdoComInstance with
  | none =>
    rw [sdocom_addInstance_none env s hd, sdocom_delInstance_none env s hd,
      sdocom_defineConnection_none env s p node sdoType hd,
      sdocom_initTransferByIndex_none env s x hd, sdocom_getNodeId_none env s h hd,
      sdocom_getState_none env s h f hd, sdocom_abortTransfer_none env s h code hd,
      sdocom_undefineConnection_none env s h hd]
    simp [Outcome.final]
  | some B =>
    rw [sdocom_addInstance_some env s B hd, sdocom_delInstance_some env s B hd,
      sdocom_defineConnection_some env s p node sdoType B hd,
      sdocom_initTransferByIndex_some env s x B hd, sdocom_getNodeId_some env s h B hd,
      sdocom_getState_some env s h f B hd, sdocom_abortTransfer_some env s h code B hd,
      sdocom_undefineConnection_some env s h B hd]
    simp [Outcome.final]

/-- C5, counterexample: on a target where a read through address 0 goes through,
`sdocom_addInstance` called at program start (`pSdoComInstance` null, no
`sdocom_init` yet) is not stopped by the wrapper: it invokes an entry point
(the world and the log show the call) and returns the value 11 to its
caller. -/
theorem forwarding_without_backend_unchecked :
    (initState ([] : List Nat)).pSdoComInstance = NULL
    ∧ sdocom_addInstance exFlatEnv (initState [])
        = Outcome.returned 11 ⟨NULL, [102], [⟨NULL, Entry.pfnAddInstance, []⟩]⟩
    ∧ (sdocom_addInstance exFlatEnv (initState [])).value ≠ none
    ∧ (sdocom_addInstance exFlatEnv (initState [])).final.calls ≠ [] :=
  ⟨rfl, rfl, by decide, by decide⟩

/-- C5, amended: while no backend has been selected (`pSdoComInstance` is still
null), on a target where a read through the null pointer stops the program,
every forwarding function stops at once at that dereference: it returns no
value to its caller, and the state in which it stops is the state before the
call, so the world is untouched and no backend entry point has been invoked. -/
theorem forwarding_without_backend_stops {W : Type} (env : Env W) (s : State W)
    (hnull : s.pSdoComInstance = NULL) (htrap : deref env NULL = none)
    (p node sdoType x h f code : Nat) :
    sdocom_addInstance env s = Outcome.fault s
    ∧ sdocom_delInstance env s = Outcome.fault s
    ∧ sdocom_defineConnection env s p node sdoType = Outcome.fault s
    ∧ sdocom_initTransferByIndex env s x = Outcome.fault s
    ∧ sdocom_getNodeId env s h = Outcome.fault s
    ∧ sdocom_getState env s h f = Outcome.fault s
    ∧ sdocom_abortTransfer env s h code = Outcome.fault s
    ∧ sdocom_undefineConnection env s h = Outcome.fault s := by
  have hd : deref env s.pSdoComInstance = none := by rw [hnull]; exact htrap
  exact ⟨sdocom_addInstance_none env s hd, sdocom_delInstance_none env s hd,
    sdocom_defineConnection_none env s p node sdoType hd,
    sdocom_initTransferByIndex_none env s x hd, sdocom_getNodeId_none env s h hd,
    sdocom_getState_none env s h f hd, sdocom_abortTransfer_none env s h code hd,
    sdocom_undefineConnection_none env s h hd⟩

/-- Witness of C5 as amended: on the sample target that stops null reads, at
program start `sdocom_addInstance` and `sdocom_getNodeId` stop without a value
and without a logged call. -/
theorem forwarding_without_backend_stops_witness :
    (initState ([] : List Nat)).pSdoComInstance = NULL
    ∧ deref exEnv NULL = none
    ∧ (sdocom_addInstance exEnv (initState [])).value = none
    ∧ (sdocom_addInstance exEnv (initState [])).final.calls = []
    ∧ (sdocom_getNodeId exEnv (initState []) 3).final.world = [] :=
  have t := forwarding_without_backend_stops exEnv (initState []) rfl rfl 0 0 0 0 3 0 0
  ⟨rfl, rfl, by rw [t.1]; rfl, by rw [t.1]; rfl, by rw [t.2.2.2.2.1]; rfl⟩

/-! ## Lifetime of the selection (C6, C7) -/

/-- C6, counterexample: on the sample environment `sdocom_init 0x00` selects the
standard stack (address 2); a second `sdocom_init 0x10`, with no
`sdocom_delInstance` in between, returns and leaves the dummy stack
(address 1) active. -/
theorem second_init_switches_backend :
    (sdocom_init exEnv (initState []) 0x00).final.pSdoComInstance = 2
    ∧ ∃ vs s', run exEnv (initState []) [Op.init 0x00, Op.init 0x10] = Except.ok (vs, s')
        ∧ s'.pSdoComInstance = 1
        ∧ s'.pSdoComInstance ≠ (sdocom_init exEnv (initState []) 0x00).final.pSdoComInstance :=
  ⟨rfl, [5, 0], _, rfl, rfl, by decide⟩

/-- C6, amended: when both interfaces are valid tables, every sequence of public
calls that starts with `sdocom_init k` runs to its end, and the active backend
at the end is the one selected by the last `sdocom_init` of the sequence: the
one chosen for `k` when no further `sdocom_init` follows (whatever else is
called, `sdocom_delInstance` included), and the one chosen for `k'` when
`sdocom_init k'` is the last `sdocom_init`, with or without a
`sdocom_delInstance` before it. -/
theorem active_backend_is_last_selected {W : Type} (env : Env W)
    (hdummy : (deref env env.sdocomdummy_getInterface).isSome)
    (hstd : (deref env env.sdocomstandard_getInterface).isSome)
    (s : State W) (k : Nat) (ops : List Op) :
    ∃ vs s', run env s (Op.init k :: ops) = Except.ok (vs, s')
      ∧ ((∀ k', Op.init k' ∉ ops) → s'.pSdoComInstance = sdocom_init_switch env k)
      ∧ (∀ pre k' post, ops = pre ++ Op.init k' :: post → (∀ k'', Op.init k'' ∉ post) →
          s'.pSdoComInstance = sdocom_init_switch env k') := by
  obtain ⟨vs, s', hrun, _, _⟩ :=
    run_returns env hdummy hstd (Op.init k :: ops) s (Or.inr ⟨k, ops, rfl⟩)
  have hp := run_ok_pSdoComInstance env (Op.init k :: ops) s vs s' hrun
  refine ⟨vs, s', hrun, ?_, ?_⟩
  · intro hno
    rw [hp]
    exact lastSelected_no_init env _ ops hno
  · intro pre k' post hops hno
    rw [hp, hops]
    show lastSelected env (sdocom_init_switch env k) (pre ++ Op.init k' :: post) = _
    rw [lastSelected_append_init]
    exact lastSelected_no_init env _ post hno

/-- Witness of C6 as amended, on the sample environment: after
`sdocom_init 0x10`, `sdocom_delInstance` and `sdocom_addInstance` keep the
dummy stack (address 1) active; with `sdocom_init 0x00` after the
`sdocom_delInstance`, the standard stack (address 2) is active at the end. -/
theorem active_backend_is_last_selected_witness :
    (deref exEnv exEnv.sdocomdummy_getInterface).isSome
    ∧ (deref exEnv exEnv.sdocomstandard_getInterface).isSome
    ∧ (∃ vs s', run exEnv (initState []) [Op.init 0x10, Op.delInstance, Op.addInstance]
          = Except.ok (vs, s') ∧ s'.pSdoComInstance = 1)
    ∧ (∃ vs s', run exEnv (initState [])
          [Op.init 0x10, Op.delInstance, Op.init 0x00, Op.addInstance]
          = Except.ok (vs, s') ∧ s'.pSdoComInstance = 2) :=
  ⟨rfl, rfl,
    (active_backend_is_last_selected exEnv rfl rfl (initState []) 0x10
      [Op.delInstance, Op.addInstance]).imp
      fun _ hvs => hvs.imp fun _ hs => ⟨hs.1, hs.2.1 (by simp)⟩,
    (active_backend_is_last_selected exEnv rfl rfl (initState []) 0x10
      [Op.delInstance, Op.init 0x00, Op.addInstance]).imp
      fun _ hvs => hvs.imp fun _ hs =>
        ⟨hs.1, hs.2.2 [Op.delInstance] 0x00 [Op.addInstance] rfl (by simp)⟩⟩

/-- C7: when both interface getters return a valid table (a non-null pointer at
which a table can be read), after `sdocom_init k`, for every `k`,
`pSdoComInstance` is one of the two interfaces and is not null, and every
sequence of later public calls runs to its end with one value returned per
call: no call stops at a dereference. -/
theorem after_init_every_call_returns {W : Type} (env : Env W)
    (hdummy : env.sdocomdummy_getInterface ≠ NULL
      ∧ (deref env env.sdocomdummy_getInterface).isSome)
    (hstd : env.sdocomstandard_getInterface ≠ NULL
      ∧ (deref env env.sdocomstandard_getInterface).isSome)
    (s : State W) (k : Nat) (ops : List Op) :
    ((sdocom_init env s k).final.pSdoComInstance = env.sdocomdummy_getInterface
      ∨ (sdocom_init env s k).final.pSdoComInstance = env.sdocomstandard_getInterface)
    ∧ (sdocom_init env s k).final.pSdoComInstance ≠ NULL
    ∧ (∃ ret s1, sdocom_init env s k = Outcome.returned ret s1)
    ∧ ∃ vs s', run env s (Op.init k :: ops) = Except.ok (vs, s')
        ∧ vs.length = ops.length + 1 ∧ (deref env s'.pSdoComInstance).isSome := by
  have hk := deref_switch_isSome env k hdummy.2 hstd.2
  refine ⟨?_, ?_, ?_, ?_⟩
  · rw [sdocom_init_final]
    exact sdocom_init_switch_cases env k
  · rw [sdocom_init_final]
    rcases sdocom_init_switch_cases env k with h | h
    · rw [h]; exact hdummy.1
    · rw [h]; exact hstd.1
  · obtain ⟨t, ht⟩ := Option.isSome_iff_exists.mp hk
    exact ⟨_, _, sdocom_init_some env s k t ht⟩
  · obtain ⟨vs, s', hrun, hlen, hfin⟩ :=
      run_returns env hdummy.2 hstd.2 (Op.init k :: ops) s (Or.inr ⟨k, ops, rfl⟩)
    exact ⟨vs, s', hrun, by simpa using hlen, hfin (List.cons_ne_nil _ _)⟩

/-- Witness of C7 on the sample environment: after `sdocom_init 0x20` the three
later calls return. -/
theorem after_init_every_call_returns_witness :
    (exEnv.sdocomdummy_getInterface ≠ NULL
      ∧ (deref exEnv exEnv.sdocomdummy_getInterface).isSome)
    ∧ (exEnv.sdocomstandard_getInterface ≠ NULL
      ∧ (deref exEnv exEnv.sdocomstandard_getInterface).isSome)
    ∧ (sdocom_init exEnv (initState []) 0x20).final.pSdoComInstance ≠ NULL
    ∧ ∃ vs s', run exEnv (initState [])
          [Op.init 0x20, Op.getNodeId 4, Op.init 0x00, Op.abortTransfer 4 9] = Except.ok (vs, s')
        ∧ vs.length = 3 + 1 ∧ (deref exEnv s'.pSdoComInstance).isSome :=
  have t := after_init_every_call_returns exEnv ⟨by decide, rfl⟩ ⟨by decide, rfl⟩
    (initState []) 0x20 [Op.getNodeId 4, Op.init 0x00, Op.abortTransfer 4 9]
  ⟨⟨by decide, rfl⟩, ⟨by decide, rfl⟩, t.2.1, t.2.2.2⟩

/-! ## Lookup of the remote node (C8) -/

/-- C8: with an active backend whose `pfnGetNodeId` is the lookup of the spec,
for every handle `h` that is not currently allocated `sdocom_getNodeId h`
returns the sentinel `C_ADR_INVALID`, and the call leaves `pSdoComInstance` and
the connection table as they were. -/
theorem getNodeId_unallocated_returns_invalid (C_ADR_INVALID : Nat) (env : Env ConTable)
    (s : State ConTable) (B : tSdoComFunctions ConTable)
    (hB : deref env s.pSdoComInstance = some B)
    (hget : B.pfnGetNodeId = getPeer C_ADR_INVALID)
    (h : Nat) (hfree : s.world.allocated h = false) :
    (sdocom_getNodeId env s h).value = some C_ADR_INVALID
    ∧ (sdocom_getNodeId env s h).final.pSdoComInstance = s.pSdoComInstance
    ∧ (sdocom_getNodeId env s h).final.world = s.world := by
  rw [sdocom_getNodeId_some env s h B hB, hget, getPeer_unallocated C_ADR_INVALID h s.world hfree]
  exact ⟨rfl, rfl, rfl⟩

/-- Witness of C8: a table with handle 0 allocated to node 5 and handles 1 and 7
free; the lookup of handle 1 and of handle 7 gives the sentinel 0. -/
theorem getNodeId_unallocated_returns_invalid_witness :
    deref exLookupEnv 1 = some exLookup
    ∧ exLookup.pfnGetNodeId = getPeer 0
    ∧ ConTable.allocated ⟨[some 5, none]⟩ 7 = false
    ∧ (sdocom_getNodeId exLookupEnv ⟨1, ⟨[some 5, none]⟩, []⟩ 7).value = some 0
    ∧ (sdocom_getNodeId exLookupEnv ⟨1, ⟨[some 5, none]⟩, []⟩ 7).final.world
        = ⟨[some 5, none]⟩ :=
  have t := getNodeId_unallocated_returns_invalid 0 exLookupEnv ⟨1, ⟨[some 5, none]⟩, []⟩
    exLookup rfl rfl 7 rfl
  ⟨rfl, rfl, rfl, t.1, t.2.2⟩

/-! ## Calls made by the wrapper (C9) and failed initialisation (C10) -/

/-- C9: every public function makes exactly one call through `pSdoComInstance`.
For every state before the call, the first `sdocom_init` of a program included:
`sdocom_init k` appends to the log of calls the one call of `pfnInit` through
the pointer it has just selected (so after the selection: no `pfnAddInstance`,
and nothing through the pointer active before), and leaves the world as
`pfnInit` of the selected backend leaves it.  With a backend active, each
forwarding function appends the one call of its own entry point of the active
backend, with its arguments, and leaves the world as that one call leaves it.
Where no table can be read through the pointer, the function stops with the
log and the world as they were: no call at all. -/
theorem each_public_call_invokes_one_entry {W : Type} (env : Env W) (s : State W)
    (k p node sdoType x h f code : Nat) :
    (∀ Bk : tSdoComFunctions W, deref env (sdocom_init_switch env k) = some Bk →
      (sdocom_init env s k).final.calls
          = s.calls ++ [⟨(sdocom_init env s k).final.pSdoComInstance, Entry.pfnInit, []⟩]
        ∧ (sdocom_init env s k).final.pSdoComInstance = sdocom_init_switch env k
        ∧ (sdocom_init env s k).final.world = (Bk.pfnInit s.world).2)
    ∧ (deref env (sdocom_init_switch env k) = none →
      (sdocom_init env s k).final.calls = s.calls
        ∧ (sdocom_init env s k).final.world = s.world)
    ∧ (∀ B : tSdoComFunctions W, deref env s.pSdoComInstance = some B →
      ((sdocom_addInstance env s).final.calls
            = s.calls ++ [⟨s.pSdoComInstance, Entry.pfnAddInstance, []⟩]
          ∧ (sdocom_addInstance env s).final.world = (B.pfnAddInstance s.world).2)
      ∧ ((sdocom_delInstance env s).final.calls
            = s.calls ++ [⟨s.pSdoComInstance, Entry.pfnDelInstance, []⟩]
          ∧ (sdocom_delInstance env s).final.world = (B.pfnDelInstance s.world).2)
      ∧ ((sdocom_defineConnection env s p node sdoType).final.calls
            = s.calls ++ [⟨s.pSdoComInstance, Entry.pfnDefineCon, [p, node, sdoType]⟩]
          ∧ (sdocom_defineConnection env s p node sdoType).final.world
            = (B.pfnDefineCon p node sdoType s.world).2)
      ∧ ((sdocom_initTransferByIndex env s x).final.calls
            = s.calls ++ [⟨s.pSdoComInstance, Entry.pfnTransByIdx, [x]⟩]
          ∧ (sdocom_initTransferByIndex env s x).final.world = (B.pfnTransByIdx x s.world).2)
      ∧ ((sdocom_getNodeId env s h).final.calls
            = s.calls ++ [⟨s.pSdoComInstance, Entry.pfnGetNodeId, [h]⟩]
          ∧ (sdocom_getNodeId env s h).final.world = (B.pfnGetNodeId h s.world).2)
      ∧ ((sdocom_getState env s h f).final.calls
            = s.calls ++ [⟨s.pSdoComInstance, Entry.pfnGetState, [h, f]⟩]
          ∧ (sdocom_getState env s h f).final.world = (B.pfnGetState h f s.world).2)
      ∧ ((sdocom_abortTransfer env s h code).final.calls
            = s.calls ++ [⟨s.pSdoComInstance, Entry.pfnSdoAbort, [h, code]⟩]
          ∧ (sdocom_abortTransfer env s h code).final.world = (B.pfnSdoAbort h code s.world).2)
      ∧ ((sdocom_undefineConnection env s h).final.calls
            = s.calls ++ [⟨s.pSdoComInstance, Entry.pfnDeleteCon, [h]⟩]
          ∧ (sdocom_undefineConnection env s h).final.world = (B.pfnDeleteCon h s.world).2))
    ∧ (deref env s.pSdoComInstance = none →
      ((sdocom_addInstance env s).final.calls = s.calls
          ∧ (sdocom_addInstance env s).final.world = s.world)
      ∧ ((sdocom_delInstance env s).final.calls = s.calls
          ∧ (sdocom_delInstance env s).final.world = s.world)
      ∧ ((sdocom_defineConnection env s p node sdoType).final.calls = s.calls
          ∧ (sdocom_defineConnection env s p node sdoType).final.world = s.world)
      ∧ ((sdocom_initTransferByIndex env s x).final.calls = s.calls
          ∧ (sdocom_initTransferByIndex env s x).final.world = s.world)
      ∧ ((sdocom_getNodeId env s h).final.calls = s.calls
          ∧ (sdocom_getNodeId env s h).final.world = s.world)
      ∧ ((sdocom_getState env s h f).final.calls = s.calls
          ∧ (sdocom_getState env s h f).final.world = s.world)
      ∧ ((sdocom_abortTransfer env s h code).final.calls = s.calls
          ∧ (sdocom_abortTransfer env s h code).final.world = s.world)
      ∧ ((sdocom_undefineConnection env s h).final.calls = s.calls
          ∧ (sdocom_undefineConnection env s h).final.world = s.world)) := by
  refine ⟨?_, ?_, ?_, ?_⟩
  · intro Bk hBk
    rw [sdocom_init_some env s k Bk hBk]
    simp [Outcome.final]
  · intro hnone
    rw [sdocom_init_none env s k hnone]
    simp [Outcome.final]
  · intro B hB
    rw [sdocom_addInstance_some env s B hB, sdocom_delInstance_some env s B hB,
      sdocom_defineConnection_some env s p node sdoType B hB,
      sdocom_initTransferByIndex_some env s x B hB, sdocom_getNodeId_some env s h B hB,
      sdocom_getState_some env s h f B hB, sdocom_abortTransfer_some env s h code B hB,
      sdocom_undefineConnection_some env s h B hB]
    simp [Outcome.final]
  · intro hnone
    rw [sdocom_addInstance_none env s hnone, sdocom_delInstance_none env s hnone,
      sdocom_defineConnection_none env s p node sdoType hnone,
      sdocom_initTransferByIndex_none env s x hnone, sdocom_getNodeId_none env s h hnone,
      sdocom_getState_none env s h f hnone, sdocom_abortTransfer_none env s h code hnone,
      sdocom_undefineConnection_none env s h hnone]
    simp [Outcome.final]

/-- Witness of C9 on the sample environment.  At program start (null pointer,
which cannot be read there) `sdocom_init 0x00` logs the one call of `pfnInit`
through address 2 and the world shows only the tag of `pfnInit` of the standard
stack.  With the dummy stack active, `sdocom_init 0x00` again logs that one
call and nothing through address 1, and `sdocom_abortTransfer 4 9` logs its one
call through address 1. -/
theorem each_public_call_invokes_one_entry_witness :
    deref exEnv (initState ([] : List Nat)).pSdoComInstance = none
    ∧ deref exEnv (sdocom_init_switch exEnv 0x00) = some exStd
    ∧ (sdocom_init exEnv (initState []) 0x00).final.calls = [] ++ [⟨2, Entry.pfnInit, []⟩]
    ∧ (sdocom_init exEnv (initState []) 0x00).final.world = [101]
    ∧ deref exEnv exDummyActive.pSdoComInstance = some exDummy
    ∧ (sdocom_init exEnv exDummyActive 0x00).final.calls = [] ++ [⟨2, Entry.pfnInit, []⟩]
    ∧ (sdocom_init exEnv exDummyActive 0x00).final.world = [101]
    ∧ (sdocom_abortTransfer exEnv exDummyActive 4 9).final.calls
        = [] ++ [⟨1, Entry.pfnSdoAbort, [4, 9]⟩]
    ∧ (sdocom_abortTransfer exEnv exDummyActive 4 9).final.world = [8] :=
  have t0 := (each_public_call_invokes_one_entry exEnv (initState []) 0x00 0 0 0 0 4 0 9).1
    exStd rfl
  have t1 := each_public_call_invokes_one_entry exEnv exDummyActive 0x00 0 0 0 0 4 0 9
  have ti := t1.1 exStd rfl
  have tf := t1.2.2.1 exDummy rfl
  ⟨rfl, rfl, t0.1, t0.2.2, rfl, ti.1, ti.2.2, tf.2.2.2.2.2.2.1.1, tf.2.2.2.2.2.2.1.2⟩

/-- C10: `sdocom_init` is not atomic on failure: for every stack type `k` and
every state before the call, when `pfnInit` of the backend selected for `k`
returns a code other than `kErrorOk`, `sdocom_init` returns that code, the
selected backend stays the active one (the pointer of before is not put back),
and every later forwarding call is made through it and returns what its entry
point returns. -/
theorem failed_init_keeps_selected_backend {W : Type} (env : Env W) (s : State W)
    (k : Nat) (B : tSdoComFunctions W) (hB : deref env (sdocom_init_switch env k) = some B)
    (herr : (B.pfnInit s.world).1 ≠ env.kErrorOk) (p node sdoType x h f code : Nat) :
    ∃ s', sdocom_init env s k = Outcome.returned (B.pfnInit s.world).1 s'
      ∧ (sdocom_init env s k).value ≠ some env.kErrorOk
      ∧ s'.pSdoComInstance = sdocom_init_switch env k
      ∧ deref env s'.pSdoComInstance = some B
      ∧ (sdocom_addInstance env s').value = some (B.pfnAddInstance s'.world).1
      ∧ (sdocom_delInstance env s').value = some (B.pfnDelInstance s'.world).1
      ∧ (sdocom_defineConnection env s' p node sdoType).value
          = some (B.pfnDefineCon p node sdoType s'.world).1
      ∧ (sdocom_initTransferByIndex env s' x).value = some (B.pfnTransByIdx x s'.world).1
      ∧ (sdocom_getNodeId env s' h).value = some (B.pfnGetNodeId h s'.world).1
      ∧ (sdocom_getState env s' h f).value = some (B.pfnGetState h f s'.world).1
      ∧ (sdocom_abortTransfer env s' h code).value = some (B.pfnSdoAbort h code s'.world).1
      ∧ (sdocom_undefineConnection env s' h).value = some (B.pfnDeleteCon h s'.world).1 := by
  refine ⟨_, sdocom_init_some env s k B hB, ?_, rfl, hB, ?_⟩
  · rw [sdocom_init_some env s k B hB]
    simpa [Outcome.value] using herr
  · rw [sdocom_addInstance_some env _ B hB, sdocom_delInstance_some env _ B hB,
      sdocom_defineConnection_some env _ p node sdoType B hB,
      sdocom_initTransferByIndex_some env _ x B hB, sdocom_getNodeId_some env _ h B hB,
      sdocom_getState_some env _ h f B hB, sdocom_abortTransfer_some env _ h code B hB,
      sdocom_undefineConnection_some env _ h B hB]
    simp [Outcome.value]

/-- Witness of C10: with the dummy stack active, `sdocom_init 0x00` returns the
error 5 of `pfnInit` of the standard stack, and the standard stack (address 2)
is active afterwards. -/
theorem failed_init_keeps_selected_backend_witness :
    deref exEnv (sdocom_init_switch exEnv 0x00) = some exStd
    ∧ (exStd.pfnInit exDummyActive.world).1 ≠ exEnv.kErrorOk
    ∧ ∃ s', sdocom_init exEnv exDummyActive 0x00 = Outcome.returned 5 s'
        ∧ s'.pSdoComInstance = 2
        ∧ (sdocom_addInstance exEnv s').value = some 11 :=
  ⟨rfl, by decide,
    (failed_init_keeps_selected_backend exEnv exDummyActive 0x00 exStd rfl (by decide)
      0 0 0 0 0 0 0).imp fun _ hs => ⟨hs.1, hs.2.2.1, hs.2.2.2.2.1⟩⟩

/-! ## Buffer position tags (C11) -/

theorem orTags_lt (ts : List tEdrvBufferInFrame) : orTags ts < 8 := by
  induction ts with
  | nil => decide
  | cons u ts ih =>
    have hstep : ∀ m, m < 8 → ∀ v : tEdrvBufferInFrame, v.toNat ||| m < 8 := by
      intro m hm v
      revert m
      cases v <;> decide
    exact hstep _ ih u

theorem tagSet_or (u t : tEdrvBufferInFrame) :
    ∀ m, m < 8 → tagSet (u.toNat ||| m) t = (decide (u = t) || tagSet m t) := by
  cases u <;> cases t <;> decide

theorem tagSet_orTags (ts : List tEdrvBufferInFrame) (t : tEdrvBufferInFrame) :
    tagSet (orTags ts) t = true ↔ t ∈ ts := by
  induction ts with
  | nil => simp [orTags, tagSet]
  | cons u ts ih =>
    rw [orTags, tagSet_or u t _ (orTags_lt ts), Bool.or_eq_true, ih, List.mem_cons]
    simp [eq_comm]

/-- C11: `tEdrvBufferInFrame` has exactly the three enumerators
`kEdrvBufferFirstInFrame = 0x01`, `kEdrvBufferMiddleInFrame = 0x02` and
`kEdrvBufferLastInFrame = 0x04`; each value is a single bit, the values are
pairwise distinct and their pairwise bitwise AND is 0, so in the OR of any
collection of tags a tag is set exactly when it is in the collection, and two
collections with the same OR hold the same tags. -/
theorem tEdrvBufferInFrame_tags_unambiguous :
    (tEdrvBufferInFrame.kEdrvBufferFirstInFrame.toNat = 0x01
      ∧ tEdrvBufferInFrame.kEdrvBufferMiddleInFrame.toNat = 0x02
      ∧ tEdrvBufferInFrame.kEdrvBufferLastInFrame.toNat = 0x04)
    ∧ (∀ t : tEdrvBufferInFrame, t = tEdrvBufferInFrame.kEdrvBufferFirstInFrame
        ∨ t = tEdrvBufferInFrame.kEdrvBufferMiddleInFrame
        ∨ t = tEdrvBufferInFrame.kEdrvBufferLastInFrame)
    ∧ (∀ n : Nat, (∃ t : tEdrvBufferInFrame, t.toNat = n) ↔ (n = 0x01 ∨ n = 0x02 ∨ n = 0x04))
    ∧ (∀ t : tEdrvBufferInFrame, ∃ k, t.toNat = 2 ^ k)
    ∧ (∀ t u : tEdrvBufferInFrame, t.toNat = u.toNat ↔ t = u)
    ∧ (∀ t u : tEdrvBufferInFrame, t.toNat &&& u.toNat = 0 ↔ t ≠ u)
    ∧ (∀ (ts : List tEdrvBufferInFrame) (t : tEdrvBufferInFrame),
        tagSet (orTags ts) t = true ↔ t ∈ ts)
    ∧ (∀ ts us : List tEdrvBufferInFrame, orTags ts = orTags us →
        ∀ t, t ∈ ts ↔ t ∈ us) := by
  refine ⟨⟨rfl, rfl, rfl⟩, ?_, ?_, ?_, ?_, ?_, tagSet_orTags, ?_⟩
  · intro t
    cases t <;> simp
  · intro n
    constructor
    · rintro ⟨t, rfl⟩
      cases t <;> simp [tEdrvBufferInFrame.toNat]
    · rintro (h | h | h)
      · exact ⟨tEdrvBufferInFrame.kEdrvBufferFirstInFrame, h.symm⟩
      · exact ⟨tEdrvBufferInFrame.kEdrvBufferMiddleInFrame, h.symm⟩
      · exact ⟨tEdrvBufferInFrame.kEdrvBufferLastInFrame, h.symm⟩
  · intro t
    cases t
    · exact ⟨0, rfl⟩
    · exact ⟨1, rfl⟩
    · exact ⟨2, rfl⟩
  · intro t u
    cases t <;> cases u <;> decide
  · intro t u
    cases t <;> cases u <;> decide
  · intro ts us h t
    rw [← tagSet_orTags ts t, ← tagSet_orTags us t, h]

/-- Witness of C11: the OR of first and last is 0x05; first and last are set in
it, middle is not. -/
theorem tEdrvBufferInFrame_tags_unambiguous_witness :
    orTags [tEdrvBufferInFrame.kEdrvBufferFirstInFrame,
        tEdrvBufferInFrame.kEdrvBufferLastInFrame] = 0x05
    ∧ tagSet 0x05 tEdrvBufferInFrame.kEdrvBufferMiddleInFrame = false
    ∧ (tagSet (orTags [tEdrvBufferInFrame.kEdrvBufferFirstInFrame,
          tEdrvBufferInFrame.kEdrvBufferLastInFrame])
          tEdrvBufferInFrame.kEdrvBufferLastInFrame = true
        ↔ tEdrvBufferInFrame.kEdrvBufferLastInFrame
            ∈ [tEdrvBufferInFrame.kEdrvBufferFirstInFrame,
                tEdrvBufferInFrame.kEdrvBufferLastInFrame]) :=
  ⟨by decide, by decide,
    tEdrvBufferInFrame_tags_unambiguous.2.2.2.2.2.2.1
      [tEdrvBufferInFrame.kEdrvBufferFirstInFrame, tEdrvBufferInFrame.kEdrvBufferLastInFrame]
      tEdrvBufferInFrame.kEdrvBufferLastInFrame⟩

end SdoCom
